import Mathlib

/-
  Shallow embedding of the core of Yet-Another-BG3-Mod-Loader:
  - src/src/lib.rs                                          (run: watcher/injector entry)
  - src/crates/yabg3nml/src/autostart.rs                    (autostart: debug-bypass launcher)
  - src/crates/yet-another-bg3-mod-loader/src/tmp_loader.rs (write_loader: payload stager)
  - src/crates/yet-another-bg3-mod-loader/src/loader/write.rs (write_in: remote memory writer)

  OS primitives (VirtualAllocEx, WriteProcessMemory, Command::spawn,
  DebugActiveProcessStop, run_loader, the file system) are modelled as
  explicit oracle parameters / explicit state, and the functions record a
  trace of the OS operations they attempt, so that "no write attempted" /
  "no process creation attempted" claims are statable.
-/

namespace Yabg3

/- ## String helpers shared by autostart: Rust make_ascii_lowercase and Path::file_name -/

/-- Models the Rust char ascii-lowercase: maps A-Z to a-z, leaves all else. -/
def asciiLowerChar (c : Char) : Char :=
  if 'A' ≤ c ∧ c ≤ 'Z' then Char.ofNat (c.toNat + 32) else c

/-- Models the Rust String::make_ascii_lowercase (applied in autostart.rs line 39). -/
def asciiLowercase (s : String) : String :=
  String.mk (s.data.map asciiLowerChar)

/-- An ASCII drive letter, as accepted by the Rust std Windows parse_drive. -/
def isDriveLetter (c : Char) : Bool :=
  ('a' ≤ c && c ≤ 'z') || ('A' ≤ c && c ≤ 'Z')

/-- Windows path separator test: inside a verbatim path only a backslash
separates; otherwise slash and backslash both do. -/
def isSep (verbatim : Bool) (c : Char) : Bool :=
  if verbatim then c == '\\' else c == '/' || c == '\\'

/-- Models the Rust std Windows parse_next_component: the component up to the
first separator, and the remainder after that separator. -/
def nextComponent (verbatim : Bool) : List Char → List Char × List Char
  | [] => ([], [])
  | c :: rest =>
    if isSep verbatim c then ([], rest)
    else
      let p := nextComponent verbatim rest
      (c :: p.1, p.2)

/-- Models the Rust std Windows parse_prefix together with Prefix::len and
Prefix::is_verbatim, returning how many leading characters the path prefix
occupies and whether it is verbatim, or none when the path has no prefix:
a verbatim UNC prefix (backslash backslash questionmark backslash UNC
backslash server backslash share), a verbatim or verbatim-disk prefix
(backslash backslash questionmark backslash component), a device namespace
prefix (backslash backslash dot backslash component), a UNC prefix (backslash
backslash server separator share, both parts nonempty), or a disk prefix
(drive letter followed by a colon). -/
def pathPrefixInfo : List Char → Option (Nat × Bool)
  | '\\' :: '\\' :: rest =>
    match rest with
    | '?' :: '\\' :: rest2 =>
      match rest2 with
      | 'U' :: 'N' :: 'C' :: '\\' :: rest3 =>
        let sp := nextComponent true rest3
        let sh := nextComponent true sp.2
        Option.some (8 + sp.1.length + (if sh.1 = [] then 0 else 1 + sh.1.length), true)
      | _ =>
        let p := nextComponent true rest2
        Option.some (4 + p.1.length, true)
    | '.' :: '\\' :: rest2 =>
      let p := nextComponent false rest2
      Option.some (4 + p.1.length, false)
    | _ =>
      let sp := nextComponent false rest
      let sh := nextComponent false sp.2
      if sp.1 = [] ∨ sh.1 = [] then Option.none
      else Option.some (3 + sp.1.length + sh.1.length, false)
  | c :: ':' :: _ =>
    if isDriveLetter c then Option.some (2, false) else Option.none
  | _ => Option.none

/-- Split a character list on Windows path separators (backslash only inside
a verbatim path). Helper for fileName. -/
def splitOnSeps (verbatim : Bool) : List Char → List (List Char)
  | [] => [[]]
  | c :: rest =>
    let r := splitOnSeps verbatim rest
    if isSep verbatim c then [] :: r
    else
      match r with
      | [] => [[c]]
      | h :: t => (c :: h) :: t

/-- Models the Rust Path::file_name on Windows (autostart.rs line 44): strip
the parsed path prefix, split the remainder on separators, drop empty
components and — outside verbatim paths — current-dir dot components, and
return the last component provided it is a normal one: the result is none for
an empty or prefix-only path, a path ending in a root/current-dir tail, or a
path terminating in a parent-dir component. -/
def fileName (s : String) : Option String :=
  let cs := s.data
  let pv := (pathPrefixInfo cs).getD (0, false)
  let comps := (splitOnSeps pv.2 (cs.drop pv.1)).filter
    fun c => !c.isEmpty && (pv.2 || !(c == ['.']))
  match comps.getLast? with
  | none => none
  | some c =>
    if c = ['.', '.'] ∨ c = ['.'] then none else some (String.mk c)

/- ## Watcher entry point (src/src/lib.rs, run) -/

/-- RunType from lib.rs lines 40-44. -/
inductive RunType where
  | Watcher
  | Injector
deriving DecidableEq

/-- Timeout policy of the process watcher (lib.rs; process_watcher::Timeout).
Durations in seconds. -/
inductive Timeout where
  | none
  | duration (secs : Nat)
deriving DecidableEq

/-- The (polling_rate, timeout, oneshot) triple chosen by run (lib.rs lines 57-67):
watcher tool polls every 2s, no timeout, not oneshot; injector tool polls every
1s with a 10s timeout, oneshot. Polling rate in seconds. -/
def watch_params : RunType → Nat × Timeout × Bool
  | .Watcher => (2, .none, false)
  | .Injector => (1, .duration 10, true)

/-- CallType delivered by the process watcher to the run callback. -/
inductive CallType where
  | Pid (pid : Nat)
  | Timeout
deriving DecidableEq

/-- Outcome of one invocation of the discovery callback registered by run. -/
inductive CallbackOutcome where
  | completed
  | panicked
  | fatalExit
deriving DecidableEq

/-- The discovery callback registered by run (lib.rs lines 71-85), with
inject_plugins as an oracle returning its Result. The Pid arm calls
inject_plugins(pid, ..).unwrap(): an Ok completes normally, an Err is
unwrapped and panics. The Timeout arm calls fatal_popup, which exits the
process. -/
def run_callback (inject_plugins : Nat → Except String Unit) : CallType → CallbackOutcome
  | .Pid pid =>
    match inject_plugins pid with
    | .ok _ => .completed
    | .error _ => .panicked
  | .Timeout => .fatalExit

/- ## Debug-bypass launcher (src/crates/yabg3nml/src/autostart.rs) -/

/-- The two configured game binary paths (get_game_binary_paths result). -/
structure Exes where
  bg3 : String
  bg3_dx11 : String

/-- OS / collaborator oracle for autostart: Command::spawn (returns the child
pid), DebugActiveProcessStop, and run_loader. -/
structure AutostartOs where
  spawn : String → Except String Nat
  detach : Nat → Except String Unit
  run_loader : Nat → Except String Unit

/-- One attempted OS operation of autostart, in order. -/
inductive AStep where
  | spawn (path : String) (args : List String)
  | detach (pid : Nat)
  | run_loader (pid : Nat)
deriving DecidableEq

/-- Result of autostart: normal return, or a fatal_popup (process exit) with
the popup title. -/
inductive AResult where
  | ok
  | fatal (title : String)
deriving DecidableEq

/-- Argument validation and target resolution of autostart (autostart.rs lines
29-61): pops the first argument, ascii-lowercases it, extracts its file name,
and matches it against the two known binary names to obtain the trusted
configured path. Errors carry the parenthesised reason of the corresponding
fatal popup message; every error is reported under the title
"No direct launch". -/
def resolve_bg3 (exes : Exes) (args : List String) : Except String (String × List String) :=
  match args with
  | [] => .error "nth(1) missing"
  | first :: rest =>
    match fileName (asciiLowercase first) with
    | Option.none => .error "file_name() missing"
    | Option.some name =>
      if name = "bg3.exe" then .ok (exes.bg3, rest)
      else if name = "bg3_dx11.exe" then .ok (exes.bg3_dx11, rest)
      else .error "incorrect filename"

/-- The autostart entry point (autostart.rs lines 19-101): resolve the target,
spawn it with debug creation flags, immediately detach the debugger from the
child pid, then hand the pid to run_loader. Any fatal_popup terminates with
the title of the popup. Returns the result and the ordered trace of attempted OS
operations. -/
def autostart (os : AutostartOs) (exes : Exes) (args : List String) :
    AResult × List AStep :=
  match resolve_bg3 exes args with
  | .error _ => (.fatal "No direct launch", [])
  | .ok (path, rest) =>
    match os.spawn path with
    | .error _ => (.fatal "Spawn failure", [.spawn path rest])
    | .ok pid =>
      match os.detach pid with
      | .error _ => (.fatal "DebugActiveProcessStop failed", [.spawn path rest, .detach pid])
      | .ok _ =>
        match os.run_loader pid with
        | .error _ =>
          (.fatal "run loader failed", [.spawn path rest, .detach pid, .run_loader pid])
        | .ok _ => (.ok, [.spawn path rest, .detach pid, .run_loader pid])

/- ## Remote memory writer (src/crates/yet-another-bg3-mod-loader/src/loader/write.rs) -/

/-- Windows allocation-type flag MEM_COMMIT. -/
def MEM_COMMIT : Nat := 0x1000

/-- Windows allocation-type flag MEM_RESERVE. -/
def MEM_RESERVE : Nat := 0x2000

/-- Windows protection flag PAGE_EXECUTE_READWRITE. -/
def PAGE_EXECUTE_READWRITE : Nat := 0x40

/-- OS oracle for write_in against one target process handle:
virtualAllocEx takes (size, allocation type, protection) and returns the base
address of the new region, or none for a null return; lastError is the
GetLastError value observed after a failed allocation; writeProcessMemory
takes (address, size) and returns the winapi Result. -/
structure WriterOs where
  virtualAllocEx : Nat → Nat → Nat → Option Nat
  lastError : Nat
  writeProcessMemory : Nat → Nat → Except Nat Unit

/-- Error cases of write_in, each capturing the OS error it bails with. -/
inductive WriteInError where
  | allocFailed (osError : Nat)
  | writeFailed (osError : Nat)
deriving DecidableEq

/-- write_in (write.rs lines 15-58): allocate size bytes in the target with
MEM_RESERVE|MEM_COMMIT and PAGE_EXECUTE_READWRITE; a null return reads
GetLastError and bails without writing; otherwise WriteProcessMemory copies
size bytes to the allocated address, and an Err there bails; on success the
allocated base address is returned. The Bool records whether a write was
attempted. -/
def write_in (os : WriterOs) (size : Nat) : Except WriteInError Nat × Bool :=
  match os.virtualAllocEx size (MEM_RESERVE ||| MEM_COMMIT) PAGE_EXECUTE_READWRITE with
  | Option.none => (.error (.allocFailed os.lastError), false)
  | Option.some addr =>
    match os.writeProcessMemory addr size with
    | .error e => (.error (.writeFailed e), true)
    | .ok _ => (.ok addr, true)

/- ## Payload stager (src/crates/yet-another-bg3-mod-loader/src/tmp_loader.rs) -/

/-- File-system state seen by write_loader: whether the system temp directory
exists, and the files as an association list from path to byte contents. -/
structure Fs where
  tmpdirExists : Bool
  files : List (String × List Nat)

/-- Contents of the file at a path, if present. -/
def Fs.lookup (fs : Fs) (p : String) : Option (List Nat) :=
  (fs.files.find? fun kv => decide (kv.1 = p)).map (·.2)

/-- Models Path::exists for a file path. -/
def Fs.fileExists (fs : Fs) (p : String) : Bool :=
  (fs.lookup p).isSome

/-- The staged payload file name loader-<hash>.dll (tmp_loader.rs line 15). -/
def loaderFileName (hash : String) : String :=
  "loader-" ++ hash ++ ".dll"

/-- write_loader (tmp_loader.rs lines 9-23): bail if the system temp dir does
not exist; compute <tmpdir>/loader-<hash>.dll; if that file already exists
return the path untouched; otherwise create the file with the zstd-decompressed
embedded payload and return the path. payload is the embedded LOADER_BIN,
hash the embedded LOADER_BIN_HASH, decompress the zstd codec. The Bool in the
result records whether a decompress-and-write was performed. -/
def write_loader (tmpdir hash : String) (payload : List Nat)
    (decompress : List Nat → List Nat) (fs : Fs) :
    Except String (String × Fs × Bool) :=
  if fs.tmpdirExists = false then
    .error "system tmpdir does not exist; please ensure your system is set up properly"
  else
    let file := tmpdir ++ "/" ++ loaderFileName hash
    if fs.fileExists file then
      .ok (file, fs, false)
    else
      .ok (file, ⟨fs.tmpdirExists, (file, decompress payload) :: fs.files⟩, true)

/- ## Concrete instances used by witnesses -/

/-- A configured pair of game paths for concrete evaluations. -/
def exesW : Exes :=
  ⟨"C:/game/bin/bg3.exe", "C:/game/bin/bg3_dx11.exe"⟩

/-- An autostart OS oracle where every operation succeeds and spawn yields pid 7. -/
def osAllOk : AutostartOs :=
  ⟨fun _ => .ok 7, fun _ => .ok (), fun _ => .ok ()⟩

/-- A writer OS oracle where allocation returns address 4096 and writes succeed. -/
def osWriterOk : WriterOs :=
  ⟨fun _ _ _ => Option.some 4096, 0, fun _ _ => .ok ()⟩

/-- A writer OS oracle where allocation returns null with last error 5. -/
def osWriterAllocFail : WriterOs :=
  ⟨fun _ _ _ => Option.none, 5, fun _ _ => .ok ()⟩

/-- An empty file system whose temp directory exists. -/
def fsEmpty : Fs :=
  ⟨true, []⟩

/-- A file system already holding arbitrary bytes at the staging path for
hash "abc" under temp dir "C:/Temp". -/
def fsPre : Fs :=
  ⟨true, [("C:/Temp/" ++ loaderFileName "abc", [9, 9, 9])]⟩

end Yabg3

namespace Yabg3

/- ## Theorems -/

/-- C1 counterexample: with inject_plugins returning an error for discovered
pid 1234, the discovery callback registered by run does not complete and
continue — the unwrap on the inject_plugins Result turns the error into a
panic that unwinds out of the callback. -/
theorem run_callback_inject_error_not_contained :
    run_callback (fun _ => Except.error "failed to write to process") (CallType.Pid 1234) =
      CallbackOutcome.panicked ∧
    run_callback (fun _ => Except.error "failed to write to process") (CallType.Pid 1234) ≠
      CallbackOutcome.completed := by
  exact ⟨rfl, by decide⟩

/-- C1 amended: whenever inject_plugins returns an error for the discovered
pid, the run discovery callback panics (lib.rs line 74 unwraps the Result),
so the failure escapes the callback as a panic on the execution context of the watcher, tearing it down,
rather than as a surfaced error; continuation is broken on the watcher
context instead of being contained to that injection attempt. -/
theorem run_callback_panics_on_inject_error
    (inject_plugins : Nat → Except String Unit) (pid : Nat) (e : String)
    (h : inject_plugins pid = .error e) :
    run_callback inject_plugins (CallType.Pid pid) = CallbackOutcome.panicked := by
  simp [run_callback, h]

/-- Witness for run_callback_panics_on_inject_error at a concrete erroring
inject_plugins and pid 55. -/
theorem run_callback_panics_on_inject_error_witness :
    run_callback (fun _ => Except.error "oops") (CallType.Pid 55) = CallbackOutcome.panicked :=
  run_callback_panics_on_inject_error (fun _ => Except.error "oops") 55 "oops" rfl

/-- C8: every WatchSpec built by run has a positive polling rate; its timeout
policy is none exactly when the run type is the persistent Watcher, which is
paired with oneshot = false; the Injector run type uses a fixed 10-second
timeout paired with oneshot = true. -/
theorem run_watch_params_invariant (rt : RunType) :
    0 < (watch_params rt).1 ∧
    ((watch_params rt).2.1 = Timeout.none ↔
      rt = RunType.Watcher ∧ (watch_params rt).2.2 = false) ∧
    (rt = RunType.Injector →
      (watch_params rt).2.1 = Timeout.duration 10 ∧ (watch_params rt).2.2 = true) := by
  cases rt <;> decide

/-- Witness for run_watch_params_invariant at the Watcher run type. -/
theorem run_watch_params_invariant_witness :
    0 < (watch_params RunType.Watcher).1 ∧
    ((watch_params RunType.Watcher).2.1 = Timeout.none ↔
      RunType.Watcher = RunType.Watcher ∧ (watch_params RunType.Watcher).2.2 = false) ∧
    (RunType.Watcher = RunType.Injector →
      (watch_params RunType.Watcher).2.1 = Timeout.duration 10 ∧
      (watch_params RunType.Watcher).2.2 = true) :=
  run_watch_params_invariant RunType.Watcher

/-- C2: write_in returns Ok a exactly when the execute+read+write allocation
returned region a and the full-size copy succeeded; a null allocation yields
an allocFailed error capturing GetLastError with no write attempted; a failed
copy after a successful allocation yields a writeFailed error. -/
theorem write_in_contract (os : WriterOs) (size : Nat) :
    (∀ a, (write_in os size).1 = .ok a ↔
        os.virtualAllocEx size (MEM_RESERVE ||| MEM_COMMIT) PAGE_EXECUTE_READWRITE =
          Option.some a ∧
        os.writeProcessMemory a size = .ok ()) ∧
    (os.virtualAllocEx size (MEM_RESERVE ||| MEM_COMMIT) PAGE_EXECUTE_READWRITE =
        Option.none →
      write_in os size = (.error (.allocFailed os.lastError), false)) ∧
    (∀ a e,
      os.virtualAllocEx size (MEM_RESERVE ||| MEM_COMMIT) PAGE_EXECUTE_READWRITE =
        Option.some a →
      os.writeProcessMemory a size = .error e →
      write_in os size = (.error (.writeFailed e), true)) := by
  cases ha : os.virtualAllocEx size (MEM_RESERVE ||| MEM_COMMIT) PAGE_EXECUTE_READWRITE with
  | none =>
    refine ⟨fun a => ?_, fun _ => ?_, fun a e hsome _ => ?_⟩
    · simp [write_in, ha]
    · simp [write_in, ha]
    · simp at hsome
  | some addr =>
    cases hw : os.writeProcessMemory addr size with
    | error e =>
      refine ⟨fun a => ⟨fun hok => ?_, fun hx => ?_⟩, fun hnone => ?_, fun a e2 hsome hw2 => ?_⟩
      · simp [write_in, ha, hw] at hok
      · obtain ⟨hsome, hok⟩ := hx
        injection hsome with hh
        subst hh
        rw [hw] at hok
        simp at hok
      · simp at hnone
      · injection hsome with hh
        subst hh
        rw [hw] at hw2
        injection hw2 with he
        subst he
        simp [write_in, ha, hw]
    | ok u =>
      cases u
      refine ⟨fun a => ⟨fun hok => ?_, fun hx => ?_⟩, fun hnone => ?_, fun a e2 hsome hw2 => ?_⟩
      · simp only [write_in, ha, hw] at hok
        injection hok with hh
        subst hh
        exact ⟨rfl, hw⟩
      · obtain ⟨hsome, _⟩ := hx
        injection hsome with hh
        subst hh
        simp [write_in, ha, hw]
      · simp at hnone
      · injection hsome with hh
        subst hh
        rw [hw] at hw2
        simp at hw2

/-- Witness for write_in_contract: an allocation returning null with last
error 5 produces the allocFailed error and no write attempt. -/
theorem write_in_contract_witness :
    write_in osWriterAllocFail 16 = (.error (.allocFailed 5), false) :=
  (write_in_contract osWriterAllocFail 16).2.1 rfl

/-- C9: write_in applies no precondition check to a size-0 request ahead of
the OS calls: the outcome is decided solely by the allocation/write paths —
a null allocation yields the allocFailed error without a write, and an
accepted allocation followed by a successful zero-length copy returns Ok with
no error; a failed zero-length copy yields the writeFailed error. -/
theorem write_in_size_zero (os : WriterOs) :
    (os.virtualAllocEx 0 (MEM_RESERVE ||| MEM_COMMIT) PAGE_EXECUTE_READWRITE = Option.none →
      write_in os 0 = (.error (.allocFailed os.lastError), false)) ∧
    (∀ a,
      os.virtualAllocEx 0 (MEM_RESERVE ||| MEM_COMMIT) PAGE_EXECUTE_READWRITE = Option.some a →
      os.writeProcessMemory a 0 = .ok () →
      write_in os 0 = (.ok a, true)) ∧
    (∀ a e,
      os.virtualAllocEx 0 (MEM_RESERVE ||| MEM_COMMIT) PAGE_EXECUTE_READWRITE = Option.some a →
      os.writeProcessMemory a 0 = .error e →
      write_in os 0 = (.error (.writeFailed e), true)) := by
  refine ⟨fun ha => ?_, fun a ha hw => ?_, fun a e ha hw => ?_⟩
  · simp [write_in, ha]
  · simp [write_in, ha, hw]
  · simp [write_in, ha, hw]

/-- Witness for write_in_size_zero: an OS accepting the size-0 allocation at
address 4096 with a successful zero-length write makes write_in return Ok. -/
theorem write_in_size_zero_witness :
    write_in osWriterOk 0 = (.ok 4096, true) :=
  (write_in_size_zero osWriterOk).2.1 4096 rfl rfl

/-- Helper: a file just placed at the head of the file list exists. -/
theorem fileExists_cons_self (b : Bool) (p : String) (c : List Nat)
    (l : List (String × List Nat)) :
    Fs.fileExists ⟨b, (p, c) :: l⟩ p = true := by
  simp [Fs.fileExists, Fs.lookup, List.find?]

/-- C3: whenever the argument resolution of autostart succeeds and the spawn of the
resolved path returns pid, the step right after the spawn is a debugger detach
against exactly that pid; a detach failure is fatal ("DebugActiveProcessStop
failed") and the pid is never handed to run_loader; the pid reaches run_loader
precisely after the detach succeeded. -/
theorem autostart_detach_ordering (os : AutostartOs) (exes : Exes) (args : List String)
    (path : String) (rest : List String) (pid : Nat)
    (hres : resolve_bg3 exes args = .ok (path, rest))
    (hspawn : os.spawn path = .ok pid) :
    (autostart os exes args).2.take 2 = [AStep.spawn path rest, AStep.detach pid] ∧
    (∀ e, os.detach pid = .error e →
      (autostart os exes args).1 = .fatal "DebugActiveProcessStop failed" ∧
      AStep.run_loader pid ∉ (autostart os exes args).2) ∧
    (os.detach pid = .ok () →
      (autostart os exes args).2 =
        [AStep.spawn path rest, AStep.detach pid, AStep.run_loader pid]) := by
  cases hd : os.detach pid with
  | error e =>
    refine ⟨?_, fun e2 he2 => ⟨?_, ?_⟩, fun hok => ?_⟩
    · simp [autostart, hres, hspawn, hd]
    · simp [autostart, hres, hspawn, hd]
    · simp [autostart, hres, hspawn, hd]
    · simp at hok
  | ok u =>
    cases u
    refine ⟨?_, fun e2 he2 => ?_, fun _ => ?_⟩
    · cases hr : os.run_loader pid <;> simp [autostart, hres, hspawn, hd, hr]
    · simp at he2
    · cases hr : os.run_loader pid <;> simp [autostart, hres, hspawn, hd, hr]

/-- Witness for autostart_detach_ordering: for a direct launch of bg3.exe with
an all-succeeding OS spawning pid 7, the trace starts with the spawn followed
by the detach of pid 7. -/
theorem autostart_detach_ordering_witness :
    (autostart osAllOk exesW ["bg3.exe"]).2.take 2 =
      [AStep.spawn "C:/game/bin/bg3.exe" [], AStep.detach 7] :=
  (autostart_detach_ordering osAllOk exesW ["bg3.exe"] "C:/game/bin/bg3.exe" [] 7 rfl rfl).1

/-- C5: invoking autostart with zero additional arguments, or with a first
argument whose lowercased form has no extractable file name, terminates with
the "No direct launch" fatal popup and an empty operation trace — in
particular no process creation is attempted. -/
theorem autostart_usage_error_no_spawn (os : AutostartOs) (exes : Exes) (args : List String)
    (h : args = [] ∨
      ∃ a rest, args = a :: rest ∧ fileName (asciiLowercase a) = Option.none) :
    autostart os exes args = (.fatal "No direct launch", []) := by
  rcases h with rfl | ⟨a, rest, rfl, hf⟩
  · simp [autostart, resolve_bg3]
  · simp [autostart, resolve_bg3, hf]

/-- Witness for autostart_usage_error_no_spawn at the argument "..", which has
no file name component. -/
theorem autostart_usage_error_no_spawn_witness :
    autostart osAllOk exesW [".."] = (.fatal "No direct launch", []) :=
  autostart_usage_error_no_spawn osAllOk exesW [".."]
    (Or.inr ⟨"..", [], rfl, by decide⟩)

/-- C6: invoking autostart with a target whose file name is neither bg3.exe
nor bg3_dx11.exe terminates with the "No direct launch" fatal popup and an
empty operation trace — no process creation is attempted. -/
theorem autostart_unrecognized_no_spawn (os : AutostartOs) (exes : Exes)
    (a : String) (rest : List String) (name : String)
    (h1 : fileName (asciiLowercase a) = Option.some name)
    (h2 : name ≠ "bg3.exe") (h3 : name ≠ "bg3_dx11.exe") :
    autostart os exes (a :: rest) = (.fatal "No direct launch", []) := by
  simp [autostart, resolve_bg3, h1, h2, h3]

/-- Witness for autostart_unrecognized_no_spawn at the target "notepad.exe". -/
theorem autostart_unrecognized_no_spawn_witness :
    autostart osAllOk exesW ["notepad.exe"] = (.fatal "No direct launch", []) :=
  autostart_unrecognized_no_spawn osAllOk exesW "notepad.exe" [] "notepad.exe"
    (by decide) (by decide) (by decide)

/-- C7: resolving any mixed-case spelling s of a supported variant file name v
(asciiLowercase s = v) yields exactly the same result as resolving the
exact-case form v, namely the configured path of that variant. -/
theorem resolve_case_insensitive (exes : Exes) (s v : String) (rest : List String)
    (hv : v = "bg3.exe" ∨ v = "bg3_dx11.exe")
    (hs : asciiLowercase s = v) :
    resolve_bg3 exes (s :: rest) = resolve_bg3 exes (v :: rest) ∧
    resolve_bg3 exes (s :: rest) =
      .ok (if v = "bg3.exe" then exes.bg3 else exes.bg3_dx11, rest) := by
  rcases hv with rfl | rfl
  · have h1 : asciiLowercase "bg3.exe" = "bg3.exe" := by decide
    have h2 : fileName "bg3.exe" = Option.some "bg3.exe" := by decide
    constructor
    · simp [resolve_bg3, hs, h1, h2]
    · simp [resolve_bg3, hs, h2]
  · have h1 : asciiLowercase "bg3_dx11.exe" = "bg3_dx11.exe" := by decide
    have h2 : fileName "bg3_dx11.exe" = Option.some "bg3_dx11.exe" := by decide
    have h3 : ("bg3_dx11.exe" : String) ≠ "bg3.exe" := by decide
    constructor
    · simp [resolve_bg3, hs, h1, h2, h3]
    · simp [resolve_bg3, hs, h2, h3]

/-- Witness for resolve_case_insensitive: "BG3.exe" resolves like "bg3.exe",
to the configured bg3 path. -/
theorem resolve_case_insensitive_witness :
    resolve_bg3 exesW ["BG3.exe"] = resolve_bg3 exesW ["bg3.exe"] ∧
    resolve_bg3 exesW ["BG3.exe"] =
      .ok (if ("bg3.exe" : String) = "bg3.exe" then exesW.bg3 else exesW.bg3_dx11, []) :=
  resolve_case_insensitive exesW "BG3.exe" "bg3.exe" [] (Or.inl rfl) (by decide)

/-- C4: with an existing temp directory, write_loader returns the path
<tmpdir>/loader-<hash>.dll, and calling it again on the resulting file system
returns the identical path with no decompress-and-write; moreover if the
destination already existed the first call also wrote nothing and left the
file system unchanged. -/
theorem write_loader_idempotent (tmpdir hash : String) (payload : List Nat)
    (decompress : List Nat → List Nat) (fs : Fs) (h : fs.tmpdirExists = true) :
    ∃ fs2 w,
      write_loader tmpdir hash payload decompress fs =
        .ok (tmpdir ++ "/" ++ loaderFileName hash, fs2, w) ∧
      write_loader tmpdir hash payload decompress fs2 =
        .ok (tmpdir ++ "/" ++ loaderFileName hash, fs2, false) ∧
      (fs.fileExists (tmpdir ++ "/" ++ loaderFileName hash) = true →
        fs2 = fs ∧ w = false) := by
  cases he : fs.fileExists (tmpdir ++ "/" ++ loaderFileName hash) with
  | true =>
    refine ⟨fs, false, ?_, ?_, fun _ => ⟨rfl, rfl⟩⟩
    · simp [write_loader, h, he]
    · simp [write_loader, h, he]
  | false =>
    refine ⟨⟨fs.tmpdirExists,
        (tmpdir ++ "/" ++ loaderFileName hash, decompress payload) :: fs.files⟩, true,
      ?_, ?_, fun hc => by simp at hc⟩
    · simp [write_loader, h, he]
    · simp [write_loader, h, fileExists_cons_self]

/-- Witness for write_loader_idempotent on an empty file system with temp dir
"C:/Temp" and hash "abc". -/
theorem write_loader_idempotent_witness :
    ∃ fs2 w,
      write_loader "C:/Temp" "abc" [1, 2] id fsEmpty =
        .ok ("C:/Temp" ++ "/" ++ loaderFileName "abc", fs2, w) ∧
      write_loader "C:/Temp" "abc" [1, 2] id fs2 =
        .ok ("C:/Temp" ++ "/" ++ loaderFileName "abc", fs2, false) ∧
      (fsEmpty.fileExists ("C:/Temp" ++ "/" ++ loaderFileName "abc") = true →
        fs2 = fsEmpty ∧ w = false) :=
  write_loader_idempotent "C:/Temp" "abc" [1, 2] id fsEmpty rfl

/-- C10: if any file, of arbitrary contents c, already sits at the staging
path, write_loader returns that path with the file system completely
unchanged and performs no write — the result does not depend on c, so the
pre-existing contents are never compared against the embedded payload. -/
theorem write_loader_preexisting_returned_unchanged (tmpdir hash : String)
    (payload : List Nat) (decompress : List Nat → List Nat) (fs : Fs) (c : List Nat)
    (h : fs.tmpdirExists = true)
    (hc : fs.lookup (tmpdir ++ "/" ++ loaderFileName hash) = Option.some c) :
    write_loader tmpdir hash payload decompress fs =
      .ok (tmpdir ++ "/" ++ loaderFileName hash, fs, false) := by
  have he : fs.fileExists (tmpdir ++ "/" ++ loaderFileName hash) = true := by
    simp [Fs.fileExists, hc]
  simp [write_loader, h, he]

/-- Witness for write_loader_preexisting_returned_unchanged: a pre-existing
file holding [9, 9, 9] — different from the decompressed payload [1, 2, 3] —
is returned as the staged payload, untouched. -/
theorem write_loader_preexisting_returned_unchanged_witness :
    write_loader "C:/Temp" "abc" [1, 2] (fun _ => [1, 2, 3]) fsPre =
      .ok ("C:/Temp" ++ "/" ++ loaderFileName "abc", fsPre, false) :=
  write_loader_preexisting_returned_unchanged "C:/Temp" "abc" [1, 2]
    (fun _ => [1, 2, 3]) fsPre [9, 9, 9] rfl rfl

end Yabg3
